import Mathlib

/-!
Shallow embedding of `src/adress.finder.py` (OSM Nearby Addresses Visualization,
a Streamlit script).  Pure fragments of the script become Lean functions; the
network calls (Google geocoding, Overpass, folium tile initialization) are
modelled by passing the external service outcome as an explicit argument; the
Streamlit side effects (st.info / st.success / st.error / st.warning and the
rendered map) become explicit message lists and result values.  Latitude and
longitude are Python floats used only opaquely (passed through and interpolated
into strings), so they are embedded as their rendered decimal strings.
-/

/-- Python `dict.get(key, "")` on a tag mapping, as used for
`addr.tags.get('addr:housenumber', '')` etc. in the script. -/
def tagGet (tags : List (String × String)) (key : String) : String :=
  match tags.lookup key with
  | some v => v
  | none => ""

/-- An OSM node as delivered by overpy: a tag mapping plus coordinates
(coordinates kept as their rendered decimal strings). -/
structure OsmNode where
  tags : List (String × String)
  lat : String
  lon : String
deriving DecidableEq

/-- Display-string formatting from `main` (the optional nearby-addresses
table, lines 88-103 of the script): combine house number, street and the
optional city / postcode tags into one display string. -/
def address_display_table (addr : OsmNode) : String :=
  let housenumber := tagGet addr.tags "addr:housenumber"
  let street := tagGet addr.tags "addr:street"
  let city := tagGet addr.tags "addr:city"
  let postcode := tagGet addr.tags "addr:postcode"
  if city ≠ "" ∧ postcode ≠ "" then
    housenumber ++ " " ++ street ++ ", " ++ city ++ " " ++ postcode
  else if city ≠ "" then
    housenumber ++ " " ++ street ++ ", " ++ city
  else if postcode ≠ "" then
    housenumber ++ " " ++ street ++ ", " ++ postcode
  else
    housenumber ++ " " ++ street

/-- Display-string formatting from `generate_folium_map` (the marker popups,
lines 197-210 of the script); a literal second copy of the same logic. -/
def address_display_popup (addr : OsmNode) : String :=
  let housenumber := tagGet addr.tags "addr:housenumber"
  let street := tagGet addr.tags "addr:street"
  let city := tagGet addr.tags "addr:city"
  let postcode := tagGet addr.tags "addr:postcode"
  if city ≠ "" ∧ postcode ≠ "" then
    housenumber ++ " " ++ street ++ ", " ++ city ++ " " ++ postcode
  else if city ≠ "" then
    housenumber ++ " " ++ street ++ ", " ++ city
  else if postcode ≠ "" then
    housenumber ++ " " ++ street ++ ", " ++ postcode
  else
    housenumber ++ " " ++ street

/-- A geocoding result location (`geometry.location` of the first result). -/
structure GeoLocation where
  lat : String
  lng : String
deriving DecidableEq

/-- One result of the external geocoding service. -/
structure GeoResult where
  location : GeoLocation
deriving DecidableEq

/-- The request `gmaps_client.geocode(address, language='el')` sends to the
external geocoding service. -/
structure GeoRequest where
  address : String
  language : String
deriving DecidableEq

/-- `geocode_address` (lines 112-125): calls the geocoding client with the
language hint fixed to "el", takes the first result location, returns `none`
on zero results; a raised exception is reported via `st.error` and also
yields `none`.  The external client is passed as a function from the request
to either a result list or a raised-exception message. -/
def geocode_address (gmaps_client : GeoRequest → Except String (List GeoResult))
    (address : String) : Option (String × String) × List String :=
  match gmaps_client { address := address, language := "el" } with
  | .ok geocode_result =>
    match geocode_result with
    | r :: _ => (some (r.location.lat, r.location.lng), [])
    | [] => (none, [])
  | .error e => (none, ["Geocoding error: " ++ e])

/-- `create_overpass_query` (lines 127-139): formats the Overpass QL query
text with the radius and the coordinates interpolated. -/
def create_overpass_query (lat lon : String) (radius : Nat) : String :=
  "\n    [out:json][timeout:60];\n    (\n      node(around:" ++ toString radius
    ++ "," ++ lat ++ "," ++ lon
    ++ ")[\"addr:housenumber\"][\"addr:street\"];\n    );\n    out body;\n    "

/-- The overpy query result: the node list (ways/relations unused here). -/
structure OverpassResult where
  nodes : List OsmNode
deriving DecidableEq

/-- Outcome of the one `api.query(query)` call inside `fetch_osm_data`:
either a result, or one of the exceptions the script distinguishes. -/
inductive OverpassOutcome where
  | success (result : OverpassResult)
  | tooManyRequests
  | gatewayTimeout
  | otherError (e : String)
deriving DecidableEq

/-- `fetch_osm_data` (lines 141-155): returns the overpy result on success;
catches `OverpassTooManyRequests`, `OverpassGatewayTimeout` and any other
exception, reporting each with its own `st.error` message, and returns
`None` in every failure case.  No retry: the single call outcome decides. -/
def fetch_osm_data (outcome : OverpassOutcome) : Option OverpassResult × List String :=
  match outcome with
  | .success result => (some result, [])
  | .tooManyRequests =>
    (none, ["Error: Too many requests to Overpass API. Please try again later."])
  | .gatewayTimeout =>
    (none, ["Error: Overpass API gateway timeout. Please try again later."])
  | .otherError e =>
    (none, ["An error occurred while fetching OSM data: " ++ e])

/-- A folium marker (location, popup text, icon color, icon glyph). -/
structure MapMarker where
  location : String × String
  popup : String
  color : String
  icon : String
deriving DecidableEq

/-- The folium circle drawn for the search radius. -/
structure MapCircle where
  radius : Nat
  location : String × String
  popup : String
  color : String
  fill : Bool
deriving DecidableEq

/-- Outcome of `folium.Map(..., tiles='Stamen Toner', attr=...)`: either it
constructs, or it raises a `ValueError` (e.g. attribution validation). -/
inductive TileInitOutcome where
  | ok
  | valueError (ve : String)
deriving DecidableEq

/-- The rendered folium map: base map parameters plus the markers, the
radius circle, and the marker-cluster contents added to it. -/
structure FoliumMap where
  location : String × String
  zoom_start : Nat
  tiles : String
  attr : Option String
  markers : List MapMarker
  circles : List MapCircle
  cluster_markers : List MapMarker
deriving DecidableEq

/-- `generate_folium_map` (lines 157-218): tries the Stamen Toner tiles with
the explicit attribution; on a `ValueError` warns and falls back to the
plain OpenStreetMap tiles.  Then adds the red main marker, the blue
unfilled radius circle, and one blue home-icon marker per nearby address in
the marker cluster, each popped up with its display string.  Returns the
map together with the warning messages emitted. -/
def generate_folium_map (tileInit : TileInitOutcome) (main_address : String)
    (main_coords : String × String) (nearby_addresses : List OsmNode)
    (radius : Nat) : FoliumMap × List String :=
  let (base, warnings) : FoliumMap × List String :=
    match tileInit with
    | .ok =>
      ({ location := main_coords, zoom_start := 17, tiles := "Stamen Toner",
         attr := some "Map tiles by Stamen Design, under CC BY 3.0. Data by OpenStreetMap, under ODbL.",
         markers := [], circles := [], cluster_markers := [] },
       ([] : List String))
    | .valueError ve =>
      ({ location := main_coords, zoom_start := 17, tiles := "OpenStreetMap",
         attr := none, markers := [], circles := [], cluster_markers := [] },
       ["Tile attribution error: " ++ ve ++ ". Switching to \x27OpenStreetMap\x27 tiles."])
  let m :=
    { base with
      markers := [{ location := main_coords,
                    popup := "<b>Main Address:</b><br>" ++ main_address,
                    color := "red", icon := "info-sign" }],
      circles := [{ radius := radius, location := main_coords,
                    popup := "Search Radius", color := "blue", fill := false }],
      cluster_markers := nearby_addresses.map (fun address =>
        { location := (address.lat, address.lon),
          popup := address_display_popup address,
          color := "blue", icon := "home" }) }
  (m, warnings)

/-- Observable outcome of one button-triggered action of `main`: the
info/success/error/warning messages in order, the Overpass queries submitted,
the rendered map, the optional nearby-addresses table, and whether the
action stopped early (`st.stop`). -/
structure RunResult where
  messages : List String
  issued_queries : List String
  rendered_map : Option FoliumMap
  table : Option (List String)
  halted : Bool
deriving DecidableEq

/-- The `main` pipeline from the button press on (lines 48-106): geocode,
halt when no coordinates; build the Overpass query and fetch, halt when the
fetch returned `None` — note an overpy `Result` object defines neither
`__len__` nor `__bool__`, so `if not osm_data:` fires only for `None`, never
for a result with zero nodes; otherwise render the map, and optionally the
table of display strings.  External outcomes (geocoding service, Overpass
call, tile initialization) are explicit arguments. -/
def main_run (gmaps_client : GeoRequest → Except String (List GeoResult))
    (address_input : String) (radius_input : Nat)
    (overpass : OverpassOutcome) (tileInit : TileInitOutcome)
    (show_nearby : Bool) : RunResult :=
  let (main_coords, geoMsgs) := geocode_address gmaps_client address_input
  let msgs := ["📡 Geocoding the address..."] ++ geoMsgs
  match main_coords with
  | none =>
    { messages := msgs ++ ["❌ Geocoding failed: Address not found."],
      issued_queries := [], rendered_map := none, table := none, halted := true }
  | some (lat, lon) =>
    let msgs := msgs ++ ["✅ Coordinates: Latitude = " ++ lat ++ ", Longitude = " ++ lon]
    let query := create_overpass_query lat lon radius_input
    let msgs := msgs ++ ["🔄 Fetching nearby addresses from OpenStreetMap..."]
    let (osm_data, fetchMsgs) := fetch_osm_data overpass
    let msgs := msgs ++ fetchMsgs
    match osm_data with
    | none =>
      { messages := msgs ++ ["❌ No OSM data retrieved."],
        issued_queries := [query], rendered_map := none, table := none, halted := true }
    | some result =>
      let nearby_addresses := result.nodes
      let msgs := msgs ++ ["✅ Found " ++ toString nearby_addresses.length ++ " nearby addresses."]
      let msgs := msgs ++ ["🗺️ Generating the map..."]
      let (folium_map, mapMsgs) :=
        generate_folium_map tileInit address_input (lat, lon) nearby_addresses radius_input
      let msgs := msgs ++ mapMsgs
      let table := if show_nearby then some (nearby_addresses.map address_display_table) else none
      { messages := msgs, issued_queries := [query],
        rendered_map := some folium_map, table := table, halted := false }

/-- Modelled from the spec: postal-code extraction is not present in
`src/adress.finder.py` (it belongs to the other script variants of this
repository); the spec describes it as a pure scan of the address text for a
4-to-5-digit token returning the first match or none.  This is the
first-match semantics of a digit-run pattern of length 4 to 5: at each scan
position, when at least four digits start there, the match takes up to five
of the leading digits; otherwise scanning advances one character. -/
def postal_scan : List Char → Option (List Char)
  | [] => none
  | c :: rest =>
    if 4 ≤ ((c :: rest).takeWhile Char.isDigit).length then
      some (((c :: rest).takeWhile Char.isDigit).take 5)
    else postal_scan rest

/-- Modelled from the spec: the string-level wrapper of `postal_scan`. -/
def extract_postal_code (address : String) : Option String :=
  (postal_scan address.data).map fun l => String.mk l

/-- Whether the text contains four consecutive digit characters anywhere
(the condition under which the 4-to-5-digit pattern has a match). -/
def hasDigitRun4 : List Char → Bool
  | [] => false
  | c :: rest =>
    decide (4 ≤ ((c :: rest).takeWhile Char.isDigit).length) || hasDigitRun4 rest

/-- Modelled from the spec: deduplication of normalized display strings is
not present in `src/adress.finder.py` (the commercial variant of this
repository deduplicates); the spec describes it as order-preserving
uniqueness over the normalized string form — keep the first occurrence of
each string, drop every later duplicate. -/
def dedup_first_seen : List String → List String
  | [] => []
  | x :: xs => x :: dedup_first_seen (xs.filter fun y => y ≠ x)
termination_by l => l.length
decreasing_by
  simp only [List.length_cons]
  exact Nat.lt_succ_of_le (List.length_filter_le _ _)

/-- The normalize-then-deduplicate pipeline of the spec, over the display
formatting the script implements. -/
def normalize_dedup (records : List OsmNode) : List String :=
  dedup_first_seen (records.map address_display_popup)

/-- Helper: a string containing a literal space character is never empty. -/
theorem append_space_append_ne_empty (a b : String) : a ++ " " ++ b ≠ "" := by
  intro h
  have hdata : (a ++ " " ++ b).data = ("" : String).data := congrArg String.data h
  rcases a with ⟨da⟩
  rcases b with ⟨db⟩
  simp [String.data] at hdata

/-- Helper: deduplication yields a sublist of the input (order preserved). -/
theorem dedup_first_seen_sublist (l : List String) : (dedup_first_seen l).Sublist l := by
  induction l using dedup_first_seen.induct with
  | case1 => simp [dedup_first_seen]
  | case2 x xs ih =>
    rw [dedup_first_seen]
    exact List.Sublist.cons₂ x (ih.trans (List.filter_sublist xs))

/-- Helper: deduplication preserves membership. -/
theorem mem_dedup_first_seen (a : String) (l : List String) :
    a ∈ dedup_first_seen l ↔ a ∈ l := by
  induction l using dedup_first_seen.induct with
  | case1 => simp [dedup_first_seen]
  | case2 x xs ih =>
    rw [dedup_first_seen]
    simp only [List.mem_cons, ih, List.mem_filter, decide_eq_true_eq]
    constructor
    · rintro (rfl | ⟨h, _⟩)
      · exact Or.inl rfl
      · exact Or.inr h
    · rintro (rfl | h)
      · exact Or.inl rfl
      · by_cases hx : a = x
        · exact Or.inl hx
        · exact Or.inr ⟨h, hx⟩

/-- Helper: deduplication output has no duplicates. -/
theorem nodup_dedup_first_seen (l : List String) : (dedup_first_seen l).Nodup := by
  induction l using dedup_first_seen.induct with
  | case1 => simp [dedup_first_seen]
  | case2 x xs ih =>
    rw [dedup_first_seen, List.nodup_cons]
    refine ⟨fun hmem => ?_, ih⟩
    rw [mem_dedup_first_seen] at hmem
    have h := List.mem_filter.mp hmem
    simp only [decide_eq_true_eq] at h
    exact h.2 rfl

/-- Helper: deduplication fixes a list that already has no duplicates. -/
theorem dedup_first_seen_eq_self : ∀ l : List String, l.Nodup → dedup_first_seen l = l := by
  intro l
  induction l using dedup_first_seen.induct with
  | case1 => intro _; rw [dedup_first_seen]
  | case2 x xs ih =>
    intro h
    rw [List.nodup_cons] at h
    have hf : xs.filter (fun y => y ≠ x) = xs := by
      apply List.filter_eq_self.mpr
      intro y hy
      simp only [decide_eq_true_eq]
      intro heq
      exact h.1 (heq ▸ hy)
    rw [hf] at ih
    rw [dedup_first_seen, hf, ih h.2]

/-- Helper: shrinking a list by `filter` cannot reorder first occurrences —
for two elements of the filtered list, their first-occurrence order in the
filtered list agrees with their first-occurrence order in the full list. -/
theorem indexOf_filter_lt (p : String → Bool) :
    ∀ (xs : List String) (a b : String), a ∈ xs.filter p → b ∈ xs.filter p →
      (xs.filter p).indexOf a < (xs.filter p).indexOf b →
      xs.indexOf a < xs.indexOf b := by
  intro xs
  induction xs with
  | nil => intro a b ha _ _; simp at ha
  | cons w ws ih =>
    intro a b ha hb hlt
    by_cases hp : p w = true
    · rw [List.filter_cons_of_pos hp] at ha hb hlt
      by_cases hbw : b = w
      · subst hbw
        rw [List.indexOf_cons_self] at hlt
        omega
      · rw [List.indexOf_cons_ne _ (Ne.symm hbw)] at hlt
        have hbmem : b ∈ ws.filter p := by
          rcases List.mem_cons.mp hb with h | h
          · exact absurd h hbw
          · exact h
        by_cases haw : a = w
        · subst haw
          rw [List.indexOf_cons_self, List.indexOf_cons_ne _ (Ne.symm hbw)]
          exact Nat.succ_pos _
        · rw [List.indexOf_cons_ne _ (Ne.symm haw)] at hlt
          have hamem : a ∈ ws.filter p := by
            rcases List.mem_cons.mp ha with h | h
            · exact absurd h haw
            · exact h
          have h1 := ih a b hamem hbmem (Nat.lt_of_succ_lt_succ hlt)
          rw [List.indexOf_cons_ne _ (Ne.symm haw), List.indexOf_cons_ne _ (Ne.symm hbw)]
          exact Nat.succ_lt_succ h1
    · rw [List.filter_cons_of_neg hp] at ha hb hlt
      have haw : a ≠ w := fun h => hp (h ▸ (List.mem_filter.mp ha).2)
      have hbw : b ≠ w := fun h => hp (h ▸ (List.mem_filter.mp hb).2)
      rw [List.indexOf_cons_ne _ (Ne.symm haw), List.indexOf_cons_ne _ (Ne.symm hbw)]
      exact Nat.succ_lt_succ (ih a b ha hb hlt)

/-- Helper: the deduplicated list is ordered by first occurrence in the
input: any earlier output element first occurs in the input strictly before
any later output element. -/
theorem dedup_first_seen_pairwise (l : List String) :
    (dedup_first_seen l).Pairwise (fun a b => l.indexOf a < l.indexOf b) := by
  induction l using dedup_first_seen.induct with
  | case1 => simp [dedup_first_seen]
  | case2 x xs ih =>
    rw [dedup_first_seen]
    refine List.Pairwise.cons ?_ ?_
    · intro b hb
      have hbf : b ∈ xs.filter (fun y => y ≠ x) := (mem_dedup_first_seen b _).mp hb
      have hbx : b ≠ x := by
        have h := List.mem_filter.mp hbf
        simpa using h.2
      rw [List.indexOf_cons_self, List.indexOf_cons_ne _ (Ne.symm hbx)]
      exact Nat.succ_pos _
    · refine List.Pairwise.imp_of_mem ?_ ih
      intro a b ha hb hab
      have haf : a ∈ xs.filter (fun y => y ≠ x) := (mem_dedup_first_seen a _).mp ha
      have hbf : b ∈ xs.filter (fun y => y ≠ x) := (mem_dedup_first_seen b _).mp hb
      have hax : a ≠ x := by
        have h := List.mem_filter.mp haf
        simpa using h.2
      have hbx : b ≠ x := by
        have h := List.mem_filter.mp hbf
        simpa using h.2
      have h1 := indexOf_filter_lt _ xs a b haf hbf hab
      rw [List.indexOf_cons_ne _ (Ne.symm hax), List.indexOf_cons_ne _ (Ne.symm hbx)]
      exact Nat.succ_lt_succ h1

/-- C1: deduplication of nearby records is order-preserving uniqueness over
the normalized string form and is idempotent: running the normalize-dedup
pipeline and deduplicating again changes nothing; the output is a
duplicate-free subsequence of the normalized input containing exactly its
strings, ordered by first occurrence in the input. -/
theorem claim_C1 (records : List OsmNode) :
    dedup_first_seen (normalize_dedup records) = normalize_dedup records ∧
    (normalize_dedup records).Nodup ∧
    (normalize_dedup records).Sublist (records.map address_display_popup) ∧
    (∀ s, s ∈ normalize_dedup records ↔ s ∈ records.map address_display_popup) ∧
    (normalize_dedup records).Pairwise (fun a b =>
      (records.map address_display_popup).indexOf a <
        (records.map address_display_popup).indexOf b) :=
  ⟨dedup_first_seen_eq_self _ (nodup_dedup_first_seen _),
   nodup_dedup_first_seen _,
   dedup_first_seen_sublist _,
   fun s => mem_dedup_first_seen s _,
   dedup_first_seen_pairwise _⟩

/-- Helper: a run of digit characters at the front of a list is swallowed
whole by `takeWhile Char.isDigit`. -/
theorem length_le_length_takeWhile_digits (run post : List Char)
    (h : run.all Char.isDigit) :
    run.length ≤ ((run ++ post).takeWhile Char.isDigit).length := by
  induction run with
  | nil => simp
  | cons d ds ih =>
    rw [List.all_cons, Bool.and_eq_true] at h
    rw [List.cons_append, List.takeWhile_cons_of_pos h.1]
    simpa using ih h.2

/-- Helper: `hasDigitRun4` is exactly the presence of four consecutive
digit characters somewhere in the text. -/
theorem hasDigitRun4_eq_true_iff (l : List Char) :
    hasDigitRun4 l = true ↔
      ∃ pre run post, l = pre ++ run ++ post ∧ run.length = 4 ∧ run.all Char.isDigit := by
  induction l with
  | nil =>
    constructor
    · intro h
      simp [hasDigitRun4] at h
    · rintro ⟨pre, run, post, heq, hlen, -⟩
      have hl := congrArg List.length heq
      simp [List.length_append] at hl
      omega
  | cons c rest ih =>
    rw [hasDigitRun4]
    rw [Bool.or_eq_true, decide_eq_true_eq]
    constructor
    · rintro (h | h)
      · refine ⟨[], ((c :: rest).takeWhile Char.isDigit).take 4,
          ((c :: rest).takeWhile Char.isDigit).drop 4 ++ (c :: rest).dropWhile Char.isDigit,
          ?_, ?_, ?_⟩
        · rw [List.nil_append, ← List.append_assoc, List.take_append_drop,
            List.takeWhile_append_dropWhile]
        · rw [List.length_take]
          exact min_eq_left h
        · rw [List.all_eq_true]
          intro a hmem
          exact List.mem_takeWhile_imp ((List.take_sublist _ _).mem hmem)
      · obtain ⟨pre, run, post, heq, hlen, hall⟩ := ih.mp h
        exact ⟨c :: pre, run, post, by rw [heq]; rfl, hlen, hall⟩
    · rintro ⟨pre, run, post, heq, hlen, hall⟩
      cases pre with
      | nil =>
        left
        rw [List.nil_append] at heq
        rw [heq]
        calc 4 = run.length := hlen.symm
          _ ≤ ((run ++ post).takeWhile Char.isDigit).length :=
            length_le_length_takeWhile_digits run post hall
      | cons p pre₂ =>
        right
        apply ih.mpr
        refine ⟨pre₂, run, post, ?_, hlen, hall⟩
        rw [List.cons_append, List.cons_append] at heq
        exact (List.cons.injEq _ _ _ _ ▸ heq).2

/-- Helper: the scan finds a match exactly when four consecutive digits
occur in the text. -/
theorem postal_scan_isSome_eq (l : List Char) : (postal_scan l).isSome = hasDigitRun4 l := by
  induction l with
  | nil => rfl
  | cons c rest ih =>
    rw [postal_scan, hasDigitRun4]
    by_cases h : 4 ≤ ((c :: rest).takeWhile Char.isDigit).length
    · simp [h]
    · simp [h, ih]

/-- Helper: whatever the scan returns is a 4-to-5-digit token occurring
contiguously in the text. -/
theorem postal_scan_some_spec : ∀ l r : List Char, postal_scan l = some r →
    4 ≤ r.length ∧ r.length ≤ 5 ∧ r.all Char.isDigit ∧ ∃ pre post, l = pre ++ r ++ post := by
  intro l
  induction l with
  | nil => intro r h; simp [postal_scan] at h
  | cons c rest ih =>
    intro r h
    rw [postal_scan] at h
    by_cases hrun : 4 ≤ ((c :: rest).takeWhile Char.isDigit).length
    · rw [if_pos hrun] at h
      have hr := Option.some.inj h
      subst hr
      refine ⟨?_, ?_, ?_, [],
        ((c :: rest).takeWhile Char.isDigit).drop 5 ++ (c :: rest).dropWhile Char.isDigit, ?_⟩
      · rw [List.length_take]
        exact le_min (by norm_num) hrun
      · rw [List.length_take]
        exact min_le_left _ _
      · rw [List.all_eq_true]
        intro a hmem
        exact List.mem_takeWhile_imp ((List.take_sublist _ _).mem hmem)
      · rw [List.nil_append, ← List.append_assoc, List.take_append_drop,
          List.takeWhile_append_dropWhile]
    · rw [if_neg hrun] at h
      obtain ⟨h1, h2, h3, pre, post, heq⟩ := ih r h
      exact ⟨h1, h2, h3, c :: pre, post, by rw [List.cons_append, List.cons_append, ← heq]⟩

/-- C5: postal-code extraction is a pure function of the address text: when
the text contains a run of four consecutive digits the first-match scan
returns a 4-to-5-digit token occurring contiguously in the text, and when
it contains no such run it returns none. -/
theorem claim_C5 (address : String) :
    (hasDigitRun4 address.data = true →
      ∃ r : String, extract_postal_code address = some r ∧
        4 ≤ r.data.length ∧ r.data.length ≤ 5 ∧ r.data.all Char.isDigit ∧
        ∃ pre post, address.data = pre ++ r.data ++ post) ∧
    (hasDigitRun4 address.data = false → extract_postal_code address = none) := by
  constructor
  · intro h
    have hsome : (postal_scan address.data).isSome = true := by
      rw [postal_scan_isSome_eq, h]
    obtain ⟨rl, hrl⟩ := Option.isSome_iff_exists.mp hsome
    obtain ⟨h1, h2, h3, pre, post, heq⟩ := postal_scan_some_spec _ rl hrl
    refine ⟨String.mk rl, ?_, h1, h2, h3, pre, post, heq⟩
    rw [extract_postal_code, hrl]
    rfl
  · intro h
    have hnone : (postal_scan address.data).isSome = false := by
      rw [postal_scan_isSome_eq, h]
    have : postal_scan address.data = none := by
      apply Option.not_isSome_iff_eq_none.mp
      rw [hnone]
      exact Bool.false_ne_true
    rw [extract_postal_code, this]
    rfl

/-- Witness for C5: the spec's end-to-end address "Παπαφλέσσα 145, Αθήνα,
18546" yields a match (indeed "18546"), and a digit-free address yields
none. -/
theorem claim_C5_witness :
    (∃ r : String, extract_postal_code "Παπαφλέσσα 145, Αθήνα, 18546" = some r ∧
        4 ≤ r.data.length ∧ r.data.length ≤ 5 ∧ r.data.all Char.isDigit ∧
        ∃ pre post, ("Παπαφλέσσα 145, Αθήνα, 18546" : String).data = pre ++ r.data ++ post) ∧
    extract_postal_code "Main Street" = none ∧
    extract_postal_code "Παπαφλέσσα 145, Αθήνα, 18546" = some "18546" :=
  ⟨(claim_C5 "Παπαφλέσσα 145, Αθήνα, 18546").1 (by decide),
   (claim_C5 "Main Street").2 (by decide),
   by decide⟩

/-- Helper: appending anything to a non-empty string keeps it non-empty. -/
theorem string_append_ne_empty_left (a b : String) (h : a ≠ "") : a ++ b ≠ "" := by
  intro hab
  rcases a with ⟨da⟩
  rcases b with ⟨db⟩
  apply h
  have hdata : ((⟨da⟩ : String) ++ (⟨db⟩ : String)).data = ("" : String).data :=
    congrArg String.data hab
  simp [String.data] at hdata
  exact String.ext (by simpa using hdata.1)

/-- Helper: two strings whose first characters differ are different, even
when the first is followed by arbitrary appended text. -/
theorem string_ne_of_head_append (a b suffix : String) (ca cb : Char) (ta tb : List Char)
    (ha : a.data = ca :: ta) (hb : b.data = cb :: tb) (hc : ca ≠ cb) : a ++ suffix ≠ b := by
  intro h
  have hd := congrArg String.data h
  rw [String.data_append, ha, List.cons_append, hb] at hd
  injection hd with h1 _
  exact hc h1

/-- C10: the address-formatting logic is duplicated between the optional
table in `main` and the marker popups in `generate_folium_map`, and the two
copies compute the same display string for every record. -/
theorem claim_C10 (addr : OsmNode) : address_display_table addr = address_display_popup addr := rfl

/-- C2: normalization concatenates house number and street and selects
exactly one of four templates by which of city and postcode are non-empty,
"10 Main, Athens" arises from house number 10, street Main, city Athens and
no postcode, and the result is never empty when house number or street is
non-empty (the separating space alone already makes it non-empty). -/
theorem claim_C2 (addr : OsmNode) :
    (tagGet addr.tags "addr:city" ≠ "" ∧ tagGet addr.tags "addr:postcode" ≠ "" →
      address_display_popup addr =
        tagGet addr.tags "addr:housenumber" ++ " " ++ tagGet addr.tags "addr:street" ++ ", " ++
          tagGet addr.tags "addr:city" ++ " " ++ tagGet addr.tags "addr:postcode") ∧
    (tagGet addr.tags "addr:city" ≠ "" ∧ tagGet addr.tags "addr:postcode" = "" →
      address_display_popup addr =
        tagGet addr.tags "addr:housenumber" ++ " " ++ tagGet addr.tags "addr:street" ++ ", " ++
          tagGet addr.tags "addr:city") ∧
    (tagGet addr.tags "addr:city" = "" ∧ tagGet addr.tags "addr:postcode" ≠ "" →
      address_display_popup addr =
        tagGet addr.tags "addr:housenumber" ++ " " ++ tagGet addr.tags "addr:street" ++ ", " ++
          tagGet addr.tags "addr:postcode") ∧
    (tagGet addr.tags "addr:city" = "" ∧ tagGet addr.tags "addr:postcode" = "" →
      address_display_popup addr =
        tagGet addr.tags "addr:housenumber" ++ " " ++ tagGet addr.tags "addr:street") ∧
    (tagGet addr.tags "addr:housenumber" ≠ "" ∨ tagGet addr.tags "addr:street" ≠ "" →
      address_display_popup addr ≠ "") := by
  refine ⟨?_, ?_, ?_, ?_, ?_⟩
  · rintro ⟨h1, h2⟩
    simp only [address_display_popup]
    rw [if_pos ⟨h1, h2⟩]
  · rintro ⟨h1, h2⟩
    simp only [address_display_popup]
    rw [if_neg (fun hc => hc.2 h2), if_pos h1]
  · rintro ⟨h1, h2⟩
    simp only [address_display_popup]
    rw [if_neg (fun hc => hc.1 h1), if_neg (fun hc => hc h1), if_pos h2]
  · rintro ⟨h1, h2⟩
    simp only [address_display_popup]
    rw [if_neg (fun hc => hc.1 h1), if_neg (fun hc => hc h1), if_neg (fun hc => hc h2)]
  · intro _
    simp only [address_display_popup]
    split_ifs
    · exact string_append_ne_empty_left _ _ (string_append_ne_empty_left _ _
        (string_append_ne_empty_left _ _ (string_append_ne_empty_left _ _
          (append_space_append_ne_empty _ _))))
    · exact string_append_ne_empty_left _ _ (string_append_ne_empty_left _ _
        (append_space_append_ne_empty _ _))
    · exact string_append_ne_empty_left _ _ (string_append_ne_empty_left _ _
        (append_space_append_ne_empty _ _))
    · exact append_space_append_ne_empty _ _

/-- Witness for C2: all four templates at concrete records, including the
end-to-end scenario record (10 / Main / Athens / no postcode), plus
non-emptiness. -/
theorem claim_C2_witness :
    address_display_popup ⟨[("addr:housenumber", "10"), ("addr:street", "Main"),
      ("addr:city", "Athens"), ("addr:postcode", "11111")], "0", "0"⟩ = "10 Main, Athens 11111" ∧
    address_display_popup ⟨[("addr:housenumber", "10"), ("addr:street", "Main"),
      ("addr:city", "Athens")], "0", "0"⟩ = "10 Main, Athens" ∧
    address_display_popup ⟨[("addr:housenumber", "10"), ("addr:street", "Main"),
      ("addr:postcode", "11111")], "0", "0"⟩ = "10 Main, 11111" ∧
    address_display_popup ⟨[("addr:housenumber", "10"), ("addr:street", "Main")], "0", "0"⟩ =
      "10 Main" ∧
    address_display_popup ⟨[("addr:housenumber", "10"), ("addr:street", "Main"),
      ("addr:city", "Athens")], "0", "0"⟩ ≠ "" := by
  refine ⟨?_, ?_, ?_, ?_, ?_⟩
  · exact ((claim_C2 _).1 ⟨by decide, by decide⟩).trans (by decide)
  · exact ((claim_C2 _).2.1 ⟨by decide, by decide⟩).trans (by decide)
  · exact ((claim_C2 _).2.2.1 ⟨by decide, by decide⟩).trans (by decide)
  · exact ((claim_C2 _).2.2.2.1 ⟨by decide, by decide⟩).trans (by decide)
  · exact (claim_C2 _).2.2.2.2 (Or.inl (by decide))

/-- C3: geocoding delegates to the external service with the language hint
fixed to "el" (the result depends on the client only through its answer to
the language-"el" request), returns the first result location as a
(latitude, longitude) pair, and returns none on zero results. -/
theorem claim_C3 (gmaps_client : GeoRequest → Except String (List GeoResult)) (address : String) :
    (∀ r rest, gmaps_client { address := address, language := "el" } = .ok (r :: rest) →
      (geocode_address gmaps_client address).1 = some (r.location.lat, r.location.lng)) ∧
    (gmaps_client { address := address, language := "el" } = .ok [] →
      (geocode_address gmaps_client address).1 = none) ∧
    (∀ gmaps_client₂ : GeoRequest → Except String (List GeoResult),
      gmaps_client { address := address, language := "el" } =
        gmaps_client₂ { address := address, language := "el" } →
      geocode_address gmaps_client address = geocode_address gmaps_client₂ address) := by
  refine ⟨?_, ?_, ?_⟩
  · intro r rest h
    simp only [geocode_address, h]
  · intro h
    simp only [geocode_address, h]
  · intro client₂ h
    simp only [geocode_address, h]

/-- Witness for C3: a one-result service yields its location, an
empty-result service yields none, and two services agreeing on the "el"
request are interchangeable. -/
theorem claim_C3_witness :
    (geocode_address (fun _ => Except.ok [⟨⟨"37.98", "23.72"⟩⟩])
        "Παπαφλέσσα 145, Αθήνα, 18546").1 = some ("37.98", "23.72") ∧
    (geocode_address (fun _ => Except.ok []) "Παπαφλέσσα 145, Αθήνα, 18546").1 = none ∧
    geocode_address (fun _ => Except.ok []) "Παπαφλέσσα 145, Αθήνα, 18546" =
      geocode_address (fun req => if req.address = "" then Except.error "x" else Except.ok [])
        "Παπαφλέσσα 145, Αθήνα, 18546" :=
  ⟨(claim_C3 _ _).1 ⟨⟨"37.98", "23.72"⟩⟩ [] rfl,
   (claim_C3 _ _).2.1 rfl,
   (claim_C3 _ _).2.2 _ rfl⟩

/-- C6: the open-data fetch distinguishes rate-limiting, gateway timeout
and a generic error; each is reported with its own message, the three
messages are pairwise distinct (whatever the generic exception text), and
each failure returns no result — terminal for the request. -/
theorem claim_C6 (e : String) :
    fetch_osm_data .tooManyRequests =
      (none, ["Error: Too many requests to Overpass API. Please try again later."]) ∧
    fetch_osm_data .gatewayTimeout =
      (none, ["Error: Overpass API gateway timeout. Please try again later."]) ∧
    fetch_osm_data (.otherError e) =
      (none, ["An error occurred while fetching OSM data: " ++ e]) ∧
    "Error: Too many requests to Overpass API. Please try again later." ≠
      "Error: Overpass API gateway timeout. Please try again later." ∧
    "An error occurred while fetching OSM data: " ++ e ≠
      "Error: Too many requests to Overpass API. Please try again later." ∧
    "An error occurred while fetching OSM data: " ++ e ≠
      "Error: Overpass API gateway timeout. Please try again later." := by
  refine ⟨rfl, rfl, rfl, by decide, ?_, ?_⟩
  · exact string_ne_of_head_append _ _ e 'A' 'E'
      ("n error occurred while fetching OSM data: " : String).data
      ("rror: Too many requests to Overpass API. Please try again later." : String).data
      (by decide) (by decide) (by decide)
  · exact string_ne_of_head_append _ _ e 'A' 'E'
      ("n error occurred while fetching OSM data: " : String).data
      ("rror: Overpass API gateway timeout. Please try again later." : String).data
      (by decide) (by decide) (by decide)

/-- Helper: the coordinates success message can never collide with the
no-data error message (their first characters differ). -/
theorem coords_msg_ne_noosm (lat lng : String) :
    "✅ Coordinates: Latitude = " ++ lat ++ ", Longitude = " ++ lng ≠
      "❌ No OSM data retrieved." := by
  intro h
  have hd := congrArg String.data h
  rw [String.data_append, String.data_append, String.data_append] at hd
  rw [show ("✅ Coordinates: Latitude = " : String).data =
      '✅' :: (" Coordinates: Latitude = " : String).data from by decide] at hd
  rw [List.cons_append, List.cons_append, List.cons_append] at hd
  rw [show ("❌ No OSM data retrieved." : String).data =
      '❌' :: (" No OSM data retrieved." : String).data from by decide] at hd
  injection hd with h1 _
  exact absurd h1 (by decide)

/-- C7: whenever the geocoding service returns zero results, or the
geocoding call raises, the action halts with the not-found error and no
Overpass query is constructed or submitted and no map is rendered. -/
theorem claim_C7 (gmaps_client : GeoRequest → Except String (List GeoResult))
    (address : String) (radius : Nat) (overpass : OverpassOutcome)
    (tileInit : TileInitOutcome) (show_nearby : Bool)
    (h : gmaps_client { address := address, language := "el" } = .ok [] ∨
      ∃ e, gmaps_client { address := address, language := "el" } = .error e) :
    (main_run gmaps_client address radius overpass tileInit show_nearby).halted = true ∧
    (main_run gmaps_client address radius overpass tileInit show_nearby).issued_queries = [] ∧
    (main_run gmaps_client address radius overpass tileInit show_nearby).rendered_map = none ∧
    "❌ Geocoding failed: Address not found." ∈
      (main_run gmaps_client address radius overpass tileInit show_nearby).messages := by
  rcases h with h | ⟨e, h⟩ <;>
    simp [main_run, geocode_address, h]

/-- Witness for C7: a zero-result geocoding service halts the run before
any Overpass query, whatever the Overpass backend would have answered. -/
theorem claim_C7_witness :
    (main_run (fun _ => Except.ok []) "Παπαφλέσσα 145, Αθήνα, 18546" 500
      OverpassOutcome.tooManyRequests TileInitOutcome.ok false).halted = true ∧
    (main_run (fun _ => Except.ok []) "Παπαφλέσσα 145, Αθήνα, 18546" 500
      OverpassOutcome.tooManyRequests TileInitOutcome.ok false).issued_queries = [] ∧
    (main_run (fun _ => Except.ok []) "Παπαφλέσσα 145, Αθήνα, 18546" 500
      OverpassOutcome.tooManyRequests TileInitOutcome.ok false).rendered_map = none ∧
    "❌ Geocoding failed: Address not found." ∈
      (main_run (fun _ => Except.ok []) "Παπαφλέσσα 145, Αθήνα, 18546" 500
        OverpassOutcome.tooManyRequests TileInitOutcome.ok false).messages :=
  claim_C7 _ _ _ _ _ _ (Or.inl rfl)

/-- Helper: the tile fallback warning can never collide with the no-data
error message (their first characters differ). -/
theorem tile_msg_ne_noosm (ve : String) :
    "Tile attribution error: " ++ ve ++ ". Switching to \x27OpenStreetMap\x27 tiles." ≠
      "❌ No OSM data retrieved." := by
  intro h
  have hd := congrArg String.data h
  rw [String.data_append, String.data_append] at hd
  rw [show ("Tile attribution error: " : String).data =
      'T' :: ("ile attribution error: " : String).data from by decide] at hd
  rw [List.cons_append, List.cons_append] at hd
  rw [show ("❌ No OSM data retrieved." : String).data =
      '❌' :: (" No OSM data retrieved." : String).data from by decide] at hd
  injection hd with h1 _
  exact absurd h1 (by decide)

/-- C9: a successful fetch with zero records is non-exceptional — the run
completes, reports "Found 0 nearby addresses" and never shows the hard
failure message — while a failed fetch takes the hard-failure path: it
halts with "No OSM data retrieved" and renders nothing. -/
theorem claim_C9 (gmaps_client : GeoRequest → Except String (List GeoResult))
    (address : String) (radius : Nat) (tileInit : TileInitOutcome) (show_nearby : Bool)
    (r : GeoResult) (rest : List GeoResult)
    (hgeo : gmaps_client { address := address, language := "el" } = .ok (r :: rest)) :
    (main_run gmaps_client address radius (.success ⟨[]⟩) tileInit show_nearby).halted = false ∧
    "✅ Found 0 nearby addresses." ∈
      (main_run gmaps_client address radius (.success ⟨[]⟩) tileInit show_nearby).messages ∧
    "❌ No OSM data retrieved." ∉
      (main_run gmaps_client address radius (.success ⟨[]⟩) tileInit show_nearby).messages ∧
    (main_run gmaps_client address radius .tooManyRequests tileInit show_nearby).halted = true ∧
    (main_run gmaps_client address radius .tooManyRequests tileInit show_nearby).rendered_map =
      none ∧
    "❌ No OSM data retrieved." ∈
      (main_run gmaps_client address radius .tooManyRequests tileInit show_nearby).messages := by
  refine ⟨?_, ?_, ?_, ?_, ?_, ?_⟩
  · simp [main_run, geocode_address, hgeo, fetch_osm_data]
  · cases tileInit with
    | ok =>
      simp [main_run, geocode_address, hgeo, fetch_osm_data, generate_folium_map]
      exact Or.inr (by decide)
    | valueError ve =>
      simp [main_run, geocode_address, hgeo, fetch_osm_data, generate_folium_map]
      exact Or.inr (Or.inl (by decide))
  · cases tileInit with
    | ok =>
      intro hmem
      simp [main_run, geocode_address, hgeo, fetch_osm_data, generate_folium_map] at hmem
      rcases hmem with h | h
      · exact coords_msg_ne_noosm _ _ h.symm
      · exact absurd h (by decide)
    | valueError ve =>
      intro hmem
      simp [main_run, geocode_address, hgeo, fetch_osm_data, generate_folium_map] at hmem
      rcases hmem with h | h | h
      · exact coords_msg_ne_noosm _ _ h.symm
      · exact absurd h (by decide)
      · exact tile_msg_ne_noosm _ h.symm
  · simp [main_run, geocode_address, hgeo, fetch_osm_data]
  · simp [main_run, geocode_address, hgeo, fetch_osm_data]
  · simp [main_run, geocode_address, hgeo, fetch_osm_data]

/-- Witness for C9: concrete zero-record success run versus a rate-limited
run. -/
theorem claim_C9_witness :
    (main_run (fun _ => Except.ok [⟨⟨"37.98", "23.72"⟩⟩]) "A" 500
      (.success ⟨[]⟩) TileInitOutcome.ok false).halted = false ∧
    "✅ Found 0 nearby addresses." ∈
      (main_run (fun _ => Except.ok [⟨⟨"37.98", "23.72"⟩⟩]) "A" 500
        (.success ⟨[]⟩) TileInitOutcome.ok false).messages ∧
    "❌ No OSM data retrieved." ∉
      (main_run (fun _ => Except.ok [⟨⟨"37.98", "23.72"⟩⟩]) "A" 500
        (.success ⟨[]⟩) TileInitOutcome.ok false).messages ∧
    (main_run (fun _ => Except.ok [⟨⟨"37.98", "23.72"⟩⟩]) "A" 500
      .tooManyRequests TileInitOutcome.ok false).halted = true ∧
    (main_run (fun _ => Except.ok [⟨⟨"37.98", "23.72"⟩⟩]) "A" 500
      .tooManyRequests TileInitOutcome.ok false).rendered_map = none ∧
    "❌ No OSM data retrieved." ∈
      (main_run (fun _ => Except.ok [⟨⟨"37.98", "23.72"⟩⟩]) "A" 500
        .tooManyRequests TileInitOutcome.ok false).messages :=
  claim_C9 _ _ _ _ _ ⟨⟨"37.98", "23.72"⟩⟩ [] rfl

/-- C8: when tile initialization raises a validation error the renderer
falls back to the generic OpenStreetMap tile provider, surfaces the
non-fatal warning, and the action still completes with the fallback map. -/
theorem claim_C8 (gmaps_client : GeoRequest → Except String (List GeoResult))
    (address : String) (radius : Nat) (ve : String) (show_nearby : Bool)
    (result : OverpassResult) (r : GeoResult) (rest : List GeoResult)
    (hgeo : gmaps_client { address := address, language := "el" } = .ok (r :: rest)) :
    (main_run gmaps_client address radius (.success result) (.valueError ve)
      show_nearby).halted = false ∧
    ((main_run gmaps_client address radius (.success result) (.valueError ve)
      show_nearby).rendered_map.map fun m => (m.tiles, m.attr)) =
        some ("OpenStreetMap", none) ∧
    ("Tile attribution error: " ++ ve ++ ". Switching to \x27OpenStreetMap\x27 tiles.") ∈
      (main_run gmaps_client address radius (.success result) (.valueError ve)
        show_nearby).messages ∧
    (generate_folium_map (.valueError ve) address (r.location.lat, r.location.lng)
      result.nodes radius).1.tiles = "OpenStreetMap" := by
  refine ⟨?_, ?_, ?_, ?_⟩ <;>
    simp [main_run, geocode_address, hgeo, fetch_osm_data, generate_folium_map]

/-- Witness for C8: a concrete run whose tile initialization raises. -/
theorem claim_C8_witness :
    (main_run (fun _ => Except.ok [⟨⟨"37.98", "23.72"⟩⟩]) "A" 500
      (.success ⟨[]⟩) (.valueError "Custom tiles must have an attribution.")
      false).halted = false ∧
    ((main_run (fun _ => Except.ok [⟨⟨"37.98", "23.72"⟩⟩]) "A" 500
      (.success ⟨[]⟩) (.valueError "Custom tiles must have an attribution.")
      false).rendered_map.map fun m => (m.tiles, m.attr)) =
        some ("OpenStreetMap", none) ∧
    ("Tile attribution error: Custom tiles must have an attribution." ++
        ". Switching to \x27OpenStreetMap\x27 tiles.") ∈
      (main_run (fun _ => Except.ok [⟨⟨"37.98", "23.72"⟩⟩]) "A" 500
        (.success ⟨[]⟩) (.valueError "Custom tiles must have an attribution.")
        false).messages ∧
    (generate_folium_map (.valueError "Custom tiles must have an attribution.") "A"
      (("37.98" : String), ("23.72" : String)) ([] : List OsmNode) 500).1.tiles =
        "OpenStreetMap" := by
  have h := claim_C8 (fun _ => Except.ok [⟨⟨"37.98", "23.72"⟩⟩]) "A" 500
    "Custom tiles must have an attribution." false ⟨[]⟩ ⟨⟨"37.98", "23.72"⟩⟩ [] rfl
  refine ⟨h.1, h.2.1, ?_, h.2.2.2⟩
  have h3 := h.2.2.1
  rwa [show ("Tile attribution error: " ++ "Custom tiles must have an attribution." :
    String) = "Tile attribution error: Custom tiles must have an attribution." from by
      decide] at h3

/-- C4: for every radius in [100, 2000] the run submits exactly the query
built from that radius, the query text embeds that radius as the `around:`
parameter, and the circle drawn on the rendered map carries that same
radius — the slider value reaches both consumers unchanged. -/
theorem claim_C4 (gmaps_client : GeoRequest → Except String (List GeoResult))
    (address : String) (radius : Nat) (h100 : 100 ≤ radius) (h2000 : radius ≤ 2000)
    (result : OverpassResult) (tileInit : TileInitOutcome) (show_nearby : Bool)
    (r : GeoResult) (rest : List GeoResult)
    (hgeo : gmaps_client { address := address, language := "el" } = .ok (r :: rest)) :
    (main_run gmaps_client address radius (.success result) tileInit
      show_nearby).issued_queries =
        [create_overpass_query r.location.lat r.location.lng radius] ∧
    (∃ pre post, create_overpass_query r.location.lat r.location.lng radius =
      pre ++ "around:" ++ toString radius ++ "," ++ post) ∧
    ((main_run gmaps_client address radius (.success result) tileInit
      show_nearby).rendered_map.map fun m => m.circles.map MapCircle.radius) =
        some [radius] := by
  refine ⟨?_, ?_, ?_⟩
  · cases tileInit <;> simp [main_run, geocode_address, hgeo, fetch_osm_data]
  · refine ⟨"\n    [out:json][timeout:60];\n    (\n      node(",
      r.location.lat ++ "," ++ r.location.lng ++
        ")[\"addr:housenumber\"][\"addr:street\"];\n    );\n    out body;\n    ", ?_⟩
    rw [create_overpass_query]
    rw [show ("\n    [out:json][timeout:60];\n    (\n      node(" : String) ++ "around:" =
      "\n    [out:json][timeout:60];\n    (\n      node(around:" from by decide]
    simp [String.append_assoc]
  · cases tileInit <;>
      simp [main_run, geocode_address, hgeo, fetch_osm_data, generate_folium_map]

/-- Witness for C4: the default slider value 500 at a concrete successful
run. -/
theorem claim_C4_witness :
    (main_run (fun _ => Except.ok [⟨⟨"37.98", "23.72"⟩⟩]) "A" 500
      (.success ⟨[]⟩) TileInitOutcome.ok false).issued_queries =
        [create_overpass_query "37.98" "23.72" 500] ∧
    (∃ pre post, create_overpass_query "37.98" "23.72" 500 =
      pre ++ "around:" ++ toString 500 ++ "," ++ post) ∧
    ((main_run (fun _ => Except.ok [⟨⟨"37.98", "23.72"⟩⟩]) "A" 500
      (.success ⟨[]⟩) TileInitOutcome.ok false).rendered_map.map
        fun m => m.circles.map MapCircle.radius) = some [500] :=
  claim_C4 (fun _ => Except.ok [⟨⟨"37.98", "23.72"⟩⟩]) "A" 500 (by norm_num)
    (by norm_num) ⟨[]⟩ TileInitOutcome.ok false ⟨⟨"37.98", "23.72"⟩⟩ [] rfl

/-- Witness for C6: a concrete generic exception text, evaluated. -/
theorem claim_C6_witness :
    fetch_osm_data (.otherError "HTTP 500") =
      (none, ["An error occurred while fetching OSM data: HTTP 500"]) ∧
    "An error occurred while fetching OSM data: HTTP 500" ≠
      "Error: Too many requests to Overpass API. Please try again later." := by
  have h := claim_C6 "HTTP 500"
  refine ⟨h.2.2.1.trans (by decide), fun heq => h.2.2.2.2.1 (Eq.trans (by decide) heq)⟩
